import Mathlib

/-!
Verification of the Navigation Panel Controller of the browser-storage
teaching app (App.vue).  The controller owns:

* `isSidenavOpen` — the panel open/closed flag, persisted to the external
  key-value store under the fixed key `demo.sidenavOpen`;
* `sections` — three independent expand/collapse flags (`demos`,
  `practiceGuided`, `practiceMinimal`), not persisted;
* the current route path, supplied by the router;
* a reconciliation rule (a watcher on `route.path`, run with
  `immediate: true`) keeping the section of the current route open.

The embedding is a direct translation of the `<script setup>` block of
App.vue.  JS strings are modelled as Lean `String`; the JS
`path.startsWith(p)` test is modelled on the character-sequence view
(`List.isPrefixOf` over `String.data`), which agrees with the JS
semantics on these ASCII paths and is kernel-computable.  The single
external-store key used by the controller is modelled as an
`Option String` cell plus a log of the values written to it, so that
writes (including idempotent re-writes of the same value) are
observable.  Vue reactivity is modelled by its documented semantics:
a watcher on a `ref` fires exactly when the assigned value differs
from the previous one, synchronously relative to this model.
-/

/-- The three collapsible link sections of the sidenav
(keys of the reactive `sections` object in App.vue). -/
inductive SectionId where
  | demos
  | practiceGuided
  | practiceMinimal
deriving DecidableEq, Repr

/-- The `sections` reactive object: one expanded-flag per section.
All flags default to `false` at startup. -/
structure Sections where
  demos : Bool
  practiceGuided : Bool
  practiceMinimal : Bool
deriving DecidableEq, Repr

/-- Read the flag of one section (`sections[id]`). -/
def Sections.get (s : Sections) : SectionId → Bool
  | .demos => s.demos
  | .practiceGuided => s.practiceGuided
  | .practiceMinimal => s.practiceMinimal

/-- Write the flag of one section (`sections[id] = b`). -/
def Sections.set (s : Sections) : SectionId → Bool → Sections
  | .demos, b => { s with demos := b }
  | .practiceGuided, b => { s with practiceGuided := b }
  | .practiceMinimal, b => { s with practiceMinimal := b }

/-- JS `path.startsWith(pre)`, on the character-sequence view of the
two strings. -/
def jsStartsWith (path pre : String) : Bool :=
  List.isPrefixOf pre.data path.data

/-- `getSectionForRoute` from App.vue: which section contains a given
route path (`null` ↦ `none`).  The spec calls this `classifyRoute`. -/
def getSectionForRoute (path : String) : Option SectionId :=
  if jsStartsWith path "/practice/guided" then some .practiceGuided
  else if jsStartsWith path "/practice/minimal" then some .practiceMinimal
  else if path = "/theme" ∨ path = "/display-name" ∨ path = "/session-vs-local" ∨ path = "/devtools" then
    some .demos
  else none

/-- The body of `watch(() => route.path, (newPath, oldPath) => ...)`
in App.vue, acting on the `sections` object.  `oldPath = none` models
the `immediate: true` first invocation, where `oldPath` is `undefined`
(JS-falsy), so `oldSection` is `null`. -/
def routeWatchCallback (newPath : String) (oldPath : Option String) (sections : Sections) : Sections :=
  let newSection := getSectionForRoute newPath
  let oldSection := match oldPath with
    | some p => getSectionForRoute p
    | none => none
  let sections1 := match oldSection with
    | some og => if oldSection ≠ newSection then sections.set og false else sections
    | none => sections
  match newSection with
  | some ng => sections1.set ng true
  | none => sections1

/-- Full controller state: the in-memory reactive state, the current
route path, and the external store cell for the fixed key
`demo.sidenavOpen` together with the log of values written to it. -/
structure AppState where
  isSidenavOpen : Bool
  sections : Sections
  routePath : String
  stored : Option String
  writeLog : List String
deriving Repr

/-- `localStorage.setItem(SIDENAV_OPEN_KEY, value)`: updates the cell
and records the write. -/
def setItemSidenav (s : AppState) (value : String) : AppState :=
  { s with stored := some value, writeLog := s.writeLog ++ [value] }

/-- JS `String(b)` on a boolean. -/
def jsStringOfBool (b : Bool) : String :=
  if b then "true" else "false"

/-- `toggleSidenav` from App.vue, together with the
`watch(isSidenavOpen, ...)` write-through that the flip triggers
(the value always changes, so the watcher always fires).
The spec calls this `togglePanel`. -/
def toggleSidenav (s : AppState) : AppState :=
  let s1 := { s with isSidenavOpen := !s.isSidenavOpen }
  setItemSidenav s1 (jsStringOfBool s1.isSidenavOpen)

/-- `toggleSection` from App.vue: a section equal to
`activeSection = getSectionForRoute(route.path)` cannot be closed;
any other section's flag is flipped.  The spec calls this
`toggleGroup`. -/
def toggleSection (s : AppState) (id : SectionId) : AppState :=
  if some id = getSectionForRoute s.routePath then s
  else { s with sections := s.sections.set id (!(s.sections.get id)) }

/-- A route-change notification: the router updates `route.path` to
`newPath` and the watcher fires with the previous path as `oldPath`. -/
def onRouteChange (s : AppState) (newPath : String) : AppState :=
  { s with
    routePath := newPath
    sections := routeWatchCallback newPath (some s.routePath) s.sections }

/-- The state at the start of `setup()`: `isSidenavOpen` defaults to
`true`, all section flags default to `false`; `path` is the route the
app is loaded on and `stored` the pre-existing store content. -/
def initialState (path : String) (stored : Option String) : AppState :=
  { isSidenavOpen := true
    sections := { demos := false, practiceGuided := false, practiceMinimal := false }
    routePath := path
    stored := stored
    writeLog := [] }

/-- Component initialization: the `immediate: true` run of the route
watcher (with `oldPath` undefined), then the `onMounted` restore of
`isSidenavOpen` from the store (`savedSidenav === 'true'` when a value
is present).  When the restore changes the value of the
`isSidenavOpen` ref, the `watch(isSidenavOpen, ...)` write-through
fires and persists the new value. -/
def initializeApp (s : AppState) : AppState :=
  let s1 := { s with sections := routeWatchCallback s.routePath none s.sections }
  match s.stored with
  | some v =>
    let newOpen := v == "true"
    let s2 := { s1 with isSidenavOpen := newOpen }
    if newOpen ≠ s1.isSidenavOpen then setItemSidenav s2 (jsStringOfBool newOpen) else s2
  | none => s1

/-- The states the controller can reach: initialization from any route
path and any prior store content, followed by any sequence of
route-change notifications, section toggles, and sidenav toggles. -/
inductive Reachable : AppState → Prop where
  | init (path : String) (stored : Option String) :
      Reachable (initializeApp (initialState path stored))
  | route {s : AppState} (newPath : String) :
      Reachable s → Reachable (onRouteChange s newPath)
  | sectionToggle {s : AppState} (id : SectionId) :
      Reachable s → Reachable (toggleSection s id)
  | sidenavToggle {s : AppState} :
      Reachable s → Reachable (toggleSidenav s)

theorem Sections.get_set_same (s : Sections) (i : SectionId) (b : Bool) :
    (s.set i b).get i = b := by
  cases i <;> rfl

theorem Sections.get_set_ne (s : Sections) (i j : SectionId) (b : Bool) (h : i ≠ j) :
    (s.set i b).get j = s.get j := by
  cases i <;> cases j <;> first | rfl | exact absurd rfl h

theorem Sections.set_get_self (s : Sections) (i : SectionId) :
    s.set i (s.get i) = s := by
  cases i <;> rfl

theorem routeWatchCallback_active (newPath : String) (oldPath : Option String)
    (secs : Sections) (g : SectionId) (h : getSectionForRoute newPath = some g) :
    (routeWatchCallback newPath oldPath secs).get g = true := by
  simp only [routeWatchCallback, h]
  exact Sections.get_set_same _ g true

theorem initializeApp_sections (s : AppState) :
    (initializeApp s).sections = routeWatchCallback s.routePath none s.sections := by
  unfold initializeApp
  cases s.stored with
  | none => rfl
  | some v =>
    dsimp only
    split <;> rfl

theorem initializeApp_routePath (s : AppState) :
    (initializeApp s).routePath = s.routePath := by
  unfold initializeApp
  cases s.stored with
  | none => rfl
  | some v =>
    dsimp only
    split <;> rfl

theorem toggleSection_routePath (s : AppState) (id : SectionId) :
    (toggleSection s id).routePath = s.routePath := by
  unfold toggleSection
  split <;> rfl

theorem toggleSection_active_eq (s : AppState) (id : SectionId)
    (h : some id = getSectionForRoute s.routePath) :
    toggleSection s id = s := by
  unfold toggleSection
  exact if_pos h

theorem toggleSection_not_active_eq (s : AppState) (id : SectionId)
    (h : ¬ some id = getSectionForRoute s.routePath) :
    toggleSection s id = { s with sections := s.sections.set id (!(s.sections.get id)) } := by
  unfold toggleSection
  exact if_neg h

theorem reachable_activeSectionOpen {s : AppState} (hs : Reachable s) :
    ∀ g, getSectionForRoute s.routePath = some g → s.sections.get g = true := by
  induction hs with
  | init path stored =>
    intro g hg
    rw [initializeApp_routePath] at hg
    rw [initializeApp_sections]
    exact routeWatchCallback_active _ _ _ _ hg
  | route newPath hr ih =>
    intro g hg
    exact routeWatchCallback_active _ _ _ _ hg
  | @sectionToggle s id hr ih =>
    intro g hg
    rw [toggleSection_routePath] at hg
    by_cases hguard : some id = getSectionForRoute s.routePath
    · rw [toggleSection_active_eq s id hguard]
      exact ih g hg
    · have hne : id ≠ g := fun he => hguard (he ▸ hg.symm)
      rw [toggleSection_not_active_eq s id hguard]
      dsimp only
      rw [Sections.get_set_ne _ _ _ _ hne]
      exact ih g hg
  | sidenavToggle hr ih =>
    intro g hg
    exact ih g hg

theorem guided_not_minimal (p : String)
    (h : jsStartsWith p "/practice/minimal" = true) :
    jsStartsWith p "/practice/guided" = false := by
  by_contra hg
  rw [Bool.not_eq_false] at hg
  rw [jsStartsWith, List.isPrefixOf_iff_prefix] at h hg
  rcases List.prefix_or_prefix_of_prefix hg h with hc | hc
  · exact absurd hc (by decide)
  · exact absurd hc (by decide)

theorem routeWatchCallback_get (oldPath newPath : String) (secs : Sections) (g : SectionId) :
    (routeWatchCallback newPath (some oldPath) secs).get g =
      if getSectionForRoute newPath = some g then true
      else if getSectionForRoute oldPath = some g ∧ getSectionForRoute oldPath ≠ getSectionForRoute newPath then false
      else secs.get g := by
  cases hn : getSectionForRoute newPath with
  | none =>
    cases ho : getSectionForRoute oldPath with
    | none => simp [routeWatchCallback, hn, ho]
    | some og =>
      cases og <;> cases g <;> simp [routeWatchCallback, hn, ho, Sections.get, Sections.set]
  | some ng =>
    cases ho : getSectionForRoute oldPath with
    | none =>
      cases ng <;> cases g <;> simp [routeWatchCallback, hn, ho, Sections.get, Sections.set]
    | some og =>
      cases og <;> cases ng <;> cases g <;>
        simp [routeWatchCallback, hn, ho, Sections.get, Sections.set]

theorem same_section_routeWatch_eq {s : AppState} (hs : Reachable s) (newPath : String)
    (h : getSectionForRoute newPath = getSectionForRoute s.routePath) :
    routeWatchCallback newPath (some s.routePath) s.sections = s.sections := by
  cases hn : getSectionForRoute newPath with
  | none =>
    rw [h] at hn
    simp [routeWatchCallback, hn, h]
  | some g =>
    have hold : getSectionForRoute s.routePath = some g := h ▸ hn
    have hopen := reachable_activeSectionOpen hs g hold
    simp only [routeWatchCallback, hn, hold]
    rw [if_neg (by simp)]
    rw [← hopen]
    exact Sections.set_get_self s.sections g

theorem initial_sections_get (path : String) (stored : Option String) (g : SectionId) :
    (initializeApp (initialState path stored)).sections.get g =
      if getSectionForRoute path = some g then true else false := by
  rw [initializeApp_sections]
  show (routeWatchCallback path none
      { demos := false, practiceGuided := false, practiceMinimal := false }).get g = _
  cases hn : getSectionForRoute path with
  | none => cases g <;> simp [routeWatchCallback, hn, Sections.get]
  | some ng =>
    cases ng <;> cases g <;> simp [routeWatchCallback, hn, Sections.get, Sections.set]

theorem initializeApp_open_restore (path : String) (v : String) (hv : v ≠ "true") :
    (initializeApp (initialState path (some v))).isSidenavOpen = false := by
  have hb : (v == "true") = false := beq_eq_false_iff_ne.mpr hv
  simp [initializeApp, initialState, setItemSidenav, hb]

theorem initializeApp_open_true (path : String) :
    (initializeApp (initialState path (some "true"))).isSidenavOpen = true := by
  simp [initializeApp, initialState, setItemSidenav]

theorem initializeApp_writeLog (path : String) (stored : Option String) :
    (initializeApp (initialState path stored)).writeLog =
      (match stored with
       | none => []
       | some v => if v == "true" then [] else ["false"]) := by
  cases stored with
  | none => rfl
  | some v =>
    cases hb : v == "true" with
    | true => simp [initializeApp, initialState, setItemSidenav, hb, jsStringOfBool]
    | false => simp [initializeApp, initialState, setItemSidenav, hb, jsStringOfBool]

/-- C1: in every reachable controller state — after initialization and any
sequence of route changes, section toggles and sidenav toggles — the section
containing the current route, if any, is expanded; and after a route-change
reconciliation the new path's section is expanded for every pair of paths and
every prior section state. -/
theorem c1_active_section_invariant :
    (∀ s : AppState, Reachable s →
       ∀ g : SectionId, getSectionForRoute s.routePath = some g → s.sections.get g = true)
  ∧ (∀ oldPath newPath : String, ∀ secs : Sections, ∀ g : SectionId,
       getSectionForRoute newPath = some g →
       (routeWatchCallback newPath (some oldPath) secs).get g = true) :=
  ⟨fun _ hs => reachable_activeSectionOpen hs,
   fun oldPath newPath secs g h => routeWatchCallback_active newPath (some oldPath) secs g h⟩

/-- Witness for C1 at a concrete reachable state and a concrete route pair. -/
theorem c1_active_section_invariant_witness :
    (initializeApp (initialState "/theme" none)).sections.get SectionId.demos = true
  ∧ (routeWatchCallback "/practice/minimal/theme" (some "/theme")
       { demos := true, practiceGuided := false, practiceMinimal := false }).get
       SectionId.practiceMinimal = true :=
  ⟨c1_active_section_invariant.1 _ (Reachable.init "/theme" none) SectionId.demos (by decide),
   c1_active_section_invariant.2 "/theme" "/practice/minimal/theme" _ SectionId.practiceMinimal
     (by decide)⟩

/-- C2: `getSectionForRoute` (the spec's `classifyRoute`) is total with the
four stated outcomes: guided-practice prefix to `practiceGuided`,
minimal-practice prefix to `practiceMinimal`, the four fixed demo paths to
`demos`, and anything else (including `/`) to `none`. -/
theorem c2_getSectionForRoute_total :
    (∀ p : String, jsStartsWith p "/practice/guided" = true →
       getSectionForRoute p = some SectionId.practiceGuided)
  ∧ (∀ p : String, jsStartsWith p "/practice/minimal" = true →
       getSectionForRoute p = some SectionId.practiceMinimal)
  ∧ (∀ p : String,
       (p = "/theme" ∨ p = "/display-name" ∨ p = "/session-vs-local" ∨ p = "/devtools") →
       getSectionForRoute p = some SectionId.demos)
  ∧ (∀ p : String, jsStartsWith p "/practice/guided" = false →
       jsStartsWith p "/practice/minimal" = false →
       ¬(p = "/theme" ∨ p = "/display-name" ∨ p = "/session-vs-local" ∨ p = "/devtools") →
       getSectionForRoute p = none)
  ∧ getSectionForRoute "/" = none := by
  refine ⟨?_, ?_, ?_, ?_, by decide⟩
  · intro p h
    simp [getSectionForRoute, h]
  · intro p h
    have hg := guided_not_minimal p h
    simp [getSectionForRoute, h, hg]
  · intro p h
    rcases h with h | h | h | h <;> subst h <;> decide
  · intro p h1 h2 h3
    simp [getSectionForRoute, h1, h2, h3]

/-- Witness for C2 at concrete paths in each guarded case. -/
theorem c2_getSectionForRoute_total_witness :
    getSectionForRoute "/practice/guided/display-name" = some SectionId.practiceGuided
  ∧ getSectionForRoute "/practice/minimal/display-name" = some SectionId.practiceMinimal
  ∧ getSectionForRoute "/session-vs-local" = some SectionId.demos
  ∧ getSectionForRoute "/nowhere" = none :=
  ⟨c2_getSectionForRoute_total.1 _ (by decide),
   c2_getSectionForRoute_total.2.1 _ (by decide),
   c2_getSectionForRoute_total.2.2.1 _ (by decide),
   c2_getSectionForRoute_total.2.2.2.1 _ (by decide) (by decide) (by decide)⟩

/-- C3: a route change sets the old path's section flag to `false` exactly
when that section exists and differs from the new path's section, sets the
new path's section flag to `true` when it exists, and leaves every other flag
unchanged; including the scenario `/` to `/practice/guided/theme` to `/theme`
starting from all-collapsed. -/
theorem c3_onRouteChange_sections :
    (∀ oldPath newPath : String, ∀ secs : Sections, ∀ g : SectionId,
       (routeWatchCallback newPath (some oldPath) secs).get g =
         if getSectionForRoute newPath = some g then true
         else if getSectionForRoute oldPath = some g ∧
             getSectionForRoute oldPath ≠ getSectionForRoute newPath then false
         else secs.get g)
  ∧ (∀ s : AppState, ∀ newPath : String,
       (onRouteChange s newPath).sections = routeWatchCallback newPath (some s.routePath) s.sections)
  ∧ routeWatchCallback "/practice/guided/theme" (some "/")
      { demos := false, practiceGuided := false, practiceMinimal := false } =
      { demos := false, practiceGuided := true, practiceMinimal := false }
  ∧ routeWatchCallback "/theme" (some "/practice/guided/theme")
      { demos := false, practiceGuided := true, practiceMinimal := false } =
      { demos := true, practiceGuided := false, practiceMinimal := false } :=
  ⟨fun oldPath newPath secs g => routeWatchCallback_get oldPath newPath secs g,
   fun _ _ => rfl, by decide, by decide⟩

theorem toggleSection_iterate_fixed (s : AppState) (id : SectionId)
    (h : toggleSection s id = s) :
    ∀ n : Nat, Nat.iterate (fun t => toggleSection t id) n s = s := by
  intro n
  induction n with
  | zero => rfl
  | succ k ih =>
    show Nat.iterate (fun t => toggleSection t id) k (toggleSection s id) = s
    rw [h]
    exact ih

/-- C4: toggling the section of the current route is a no-op on the whole
state, however many times it is invoked; toggling any other section flips
exactly that section's flag. -/
theorem c4_toggleSection_spec (s : AppState) (id : SectionId) :
    (getSectionForRoute s.routePath = some id →
       ∀ n : Nat, Nat.iterate (fun t => toggleSection t id) n s = s)
  ∧ (getSectionForRoute s.routePath ≠ some id →
       (toggleSection s id).sections.get id = !(s.sections.get id)
       ∧ ∀ g : SectionId, g ≠ id → (toggleSection s id).sections.get g = s.sections.get g) := by
  constructor
  · intro h n
    exact toggleSection_iterate_fixed s id (toggleSection_active_eq s id h.symm) n
  · intro h
    have hne : ¬ some id = getSectionForRoute s.routePath := fun he => h he.symm
    rw [toggleSection_not_active_eq s id hne]
    exact ⟨Sections.get_set_same _ _ _,
           fun g hg => Sections.get_set_ne _ _ _ _ fun he => hg he.symm⟩

/-- Witness for C4: three active-section toggles at `/theme` leave the state
fixed, and toggling a non-active section flips its flag. -/
theorem c4_toggleSection_spec_witness :
    Nat.iterate (fun t => toggleSection t SectionId.demos) 3
      (initializeApp (initialState "/theme" none)) = initializeApp (initialState "/theme" none)
  ∧ (toggleSection (initializeApp (initialState "/theme" none))
       SectionId.practiceGuided).sections.get SectionId.practiceGuided
      = !((initializeApp (initialState "/theme" none)).sections.get SectionId.practiceGuided) :=
  ⟨(c4_toggleSection_spec _ SectionId.demos).1 (by decide) 3,
   ((c4_toggleSection_spec _ SectionId.practiceGuided).2 (by decide)).1⟩

/-- C5: `toggleSidenav` (the spec's `togglePanel`) is an involution on the
panel flag, and after each call the store cell holds exactly the string form
of the new in-memory value. -/
theorem c5_toggleSidenav_involution (s : AppState) :
    (toggleSidenav (toggleSidenav s)).isSidenavOpen = s.isSidenavOpen
  ∧ (toggleSidenav s).stored = some (jsStringOfBool ((toggleSidenav s).isSidenavOpen)) := by
  constructor
  · simp [toggleSidenav, setItemSidenav]
  · rfl

/-- C6: the `onMounted` restore resolves the panel flag by string equality
with `"true"`: stored `"true"` yields `true`, `"false"` yields `false`,
absence keeps the default `true`, and any other stored string (such as
`"banana"`) silently resolves to `false`. -/
theorem c6_restore_resolution (path : String) :
    (initializeApp (initialState path (some "true"))).isSidenavOpen = true
  ∧ (initializeApp (initialState path (some "false"))).isSidenavOpen = false
  ∧ (initializeApp (initialState path none)).isSidenavOpen = true
  ∧ (initializeApp (initialState path (some "banana"))).isSidenavOpen = false
  ∧ (∀ v : String, v ≠ "true" →
       (initializeApp (initialState path (some v))).isSidenavOpen = false) :=
  ⟨initializeApp_open_true path,
   initializeApp_open_restore path "false" (by decide),
   rfl,
   initializeApp_open_restore path "banana" (by decide),
   fun v hv => initializeApp_open_restore path v hv⟩

/-- Witness for C6 at the concrete corrupted value `"banana"`. -/
theorem c6_restore_resolution_witness :
    (initializeApp (initialState "/" (some "banana"))).isSidenavOpen = false :=
  (c6_restore_resolution "/").2.2.2.2 "banana" (by decide)

/-- C7 counterexample: loading with stored value `"banana"` does write back —
the restore changes the panel flag, the persistence watcher fires, and the
store cell ends up holding `"false"` instead of `"banana"`. -/
theorem c7_no_writeback_counterexample :
    (initializeApp (initialState "/" (some "banana"))).writeLog ≠ []
  ∧ (initializeApp (initialState "/" (some "banana"))).writeLog = ["false"]
  ∧ (initializeApp (initialState "/" (some "banana"))).stored = some "false" :=
  ⟨by decide, by decide, by decide⟩

/-- C7 amended: loading performs no store write when no value is stored or
the stored value is `"true"`; for any other stored value the restore flips
the panel flag from its default `true` to `false`, which triggers exactly one
write of `"false"` to the panel key. -/
theorem c7_initializeApp_writes (path : String) (stored : Option String) :
    (initializeApp (initialState path stored)).writeLog =
      (match stored with
       | none => []
       | some v => if v == "true" then [] else ["false"]) :=
  initializeApp_writeLog path stored

/-- C8: navigating within the same section — in any reachable state, to a new
path classifying to the same section as the current route — leaves the
section flags unchanged. -/
theorem c8_same_section_no_mutation (s : AppState) (hs : Reachable s) (newPath : String)
    (h : getSectionForRoute newPath = getSectionForRoute s.routePath) :
    (onRouteChange s newPath).sections = s.sections :=
  same_section_routeWatch_eq hs newPath h

/-- Witness for C8: from `/theme`, navigating to `/display-name` (also in the
demos section) leaves the flags unchanged. -/
theorem c8_same_section_no_mutation_witness :
    (onRouteChange (initializeApp (initialState "/theme" none)) "/display-name").sections
      = (initializeApp (initialState "/theme" none)).sections :=
  c8_same_section_no_mutation _ (Reachable.init "/theme" none) "/display-name" (by decide)

/-- C9: immediately after initialization — where the old path is absent and
treated as classifying to no section, so no flag is ever set to `false` —
every section flag is `false` except the section of the startup route, if
any, which is `true`. -/
theorem c9_initial_sections (path : String) (stored : Option String) (g : SectionId) :
    (initializeApp (initialState path stored)).sections.get g =
      if getSectionForRoute path = some g then true else false :=
  initial_sections_get path stored g

/-- C10: the operations touch disjoint state: the sidenav toggle never
changes section flags, and section toggles and route changes never change the
panel flag, the store cell, or the write log. -/
theorem c10_frame_disjoint (s : AppState) (id : SectionId) (newPath : String) :
    (toggleSidenav s).sections = s.sections
  ∧ (toggleSection s id).isSidenavOpen = s.isSidenavOpen
  ∧ (toggleSection s id).stored = s.stored
  ∧ (toggleSection s id).writeLog = s.writeLog
  ∧ (onRouteChange s newPath).isSidenavOpen = s.isSidenavOpen
  ∧ (onRouteChange s newPath).stored = s.stored
  ∧ (onRouteChange s newPath).writeLog = s.writeLog := by
  refine ⟨rfl, ?_, ?_, ?_, rfl, rfl, rfl⟩ <;> (unfold toggleSection; split <;> rfl)
